import Mathlib

/-!
Shallow embedding of the AsFem dense-matrix class MatrixXd and of the
nonlinear-solver configuration routine NonlinearSolver::Init, together with
theorems settling the specification claims about them.

Matrix element values are modelled as rationals: every claim under scrutiny
is structural (buffer lengths, shapes, copies, index arithmetic, error
dispatch), so exact arithmetic is a faithful stand-in for IEEE doubles here.
Matrix dimensions are modelled as naturals (the C++ code stores them in int
and never makes them negative).
-/

/-- Fatal-termination causes raised by the MatrixXd code: a diagnostic print
followed by MessagePrinter::AsFem_Exit. An operation that can terminate the
process is embedded as a function into Except AsFemExit. -/
inductive AsFemExit where
  | NotSquare
  | ShapeMismatch
deriving DecidableEq

/-- Embedding of the AsFem MatrixXd class: row count M, column count N, and
the backing std::vector of doubles as a list of rationals. The cached field
_MN of the C++ class always equals _M*_N (every member that writes _M or _N
also writes _MN to their product), so it is not stored separately. -/
structure MatrixXd where
  M : Nat
  N : Nat
  vals : List ℚ
deriving DecidableEq

/-- Well-formedness: the backing buffer holds exactly M*N elements. -/
def MatrixXd.wf (A : MatrixXd) : Prop := A.vals.length = A.M * A.N

instance (A : MatrixXd) : Decidable A.wf := by
  unfold MatrixXd.wf; infer_instance

/-- Embedding of the C++ GetM member. -/
def MatrixXd.GetM (A : MatrixXd) : Nat := A.M

/-- Embedding of the C++ GetN member. -/
def MatrixXd.GetN (A : MatrixXd) : Nat := A.N

/-- Modelled from the spec: the constructor bodies of MatrixXd are not in the
provided sources (only declared in the header); the spec says a matrix is
created with explicit dimensions, zero-filled by default. Default constructor. -/
def MatrixXd.mk0 : MatrixXd := ⟨0, 0, []⟩

/-- Modelled from the spec: two-argument constructor, m by n, zero-filled. -/
def MatrixXd.mkMN (m n : Nat) : MatrixXd := ⟨m, n, List.replicate (m * n) 0⟩

/-- Modelled from the spec: three-argument constructor, m by n, filled with val. -/
def MatrixXd.mkVal (m n : Nat) (val : ℚ) : MatrixXd :=
  ⟨m, n, List.replicate (m * n) val⟩

/-- Semantics of std::vector::resize(count, value): the existing prefix is
kept; when the vector shrinks it is truncated, and only elements appended
beyond the old size receive value. -/
def stdVectorResize (l : List ℚ) (count : Nat) (value : ℚ) : List ℚ :=
  if count ≤ l.length then l.take count
  else l ++ List.replicate (count - l.length) value

/-- Embedding of MatrixXd::Resize(m,n,val): _vals.resize(m*n,val); _M=m; _N=n;
_MN=m*n. Note the C++ call is std::vector::resize, which keeps prior contents. -/
def MatrixXd.ResizeVal (A : MatrixXd) (m n : Nat) (val : ℚ) : MatrixXd :=
  ⟨m, n, stdVectorResize A.vals (m * n) val⟩

/-- Embedding of MatrixXd::Resize(m,n): _vals.resize(m*n,0.0); _M=m; _N=n. -/
def MatrixXd.Resize (A : MatrixXd) (m n : Nat) : MatrixXd :=
  A.ResizeVal m n 0

/-- Embedding of MatrixXd::Clean(): _vals.clear(). The dimension fields _M,
_N (and _MN) are left untouched by the C++ code. -/
def MatrixXd.Clean (A : MatrixXd) : MatrixXd := ⟨A.M, A.N, []⟩

/-- Embedding of the 1-based element-access operator()(i,j): it reads
_vals[(i-1)*_N+j-1] with no bounds check; an out-of-range read is undefined
behaviour in C++ and is modelled by the default value 0. -/
def MatrixXd.at' (A : MatrixXd) (i j : Nat) : ℚ :=
  A.vals.getD ((i - 1) * A.N + (j - 1)) 0

/-- Embedding of the 1-based linear-access operator[](i): _vals[i-1]. -/
def MatrixXd.lin (A : MatrixXd) (i : Nat) : ℚ := A.vals.getD (i - 1) 0

/-- Embedding of operator=(double val): fill(_vals.begin(),_vals.end(),val);
the buffer keeps its length, every present element becomes val. -/
def MatrixXd.assignVal (A : MatrixXd) (val : ℚ) : MatrixXd :=
  ⟨A.M, A.N, A.vals.map fun _ => val⟩

/-- Embedding of operator=(const MatrixXd): if the target is freshly shaped
(_M==0 and _N==0) it adopts the source shape, reallocates and copies; if the
shapes agree elementwise copy; otherwise a diagnostic is printed and
AsFem_Exit terminates the process, embedded as the ShapeMismatch error. The
copy loops read a._vals[i] for i below the target _MN; reads are modelled
with default 0 (in-bounds for well-formed sources). -/
def MatrixXd.assign (B A : MatrixXd) : Except AsFemExit MatrixXd :=
  if B.M = 0 ∧ B.N = 0 then
    .ok ⟨A.M, A.N, List.ofFn fun i : Fin (A.M * A.N) => A.vals.getD i 0⟩
  else if B.M = A.M ∧ B.N = A.N then
    .ok ⟨B.M, B.N, List.ofFn fun i : Fin (B.M * B.N) => A.vals.getD i 0⟩
  else .error .ShapeMismatch

/-- Embedding of operator+(double): a fresh temp(_M,_N) receives
_vals[i]+val for i below _MN. -/
def MatrixXd.addVal (A : MatrixXd) (val : ℚ) : MatrixXd :=
  ⟨A.M, A.N, List.ofFn fun i : Fin (A.M * A.N) => A.vals.getD i 0 + val⟩

/-- Embedding of operator+(const MatrixXd): shape check, then elementwise sum
into a fresh temp(_M,_N); mismatch is the fatal ShapeMismatch exit. -/
def MatrixXd.add (A B : MatrixXd) : Except AsFemExit MatrixXd :=
  if A.M = B.M ∧ A.N = B.N then
    .ok ⟨A.M, A.N, List.ofFn fun i : Fin (A.M * A.N) =>
      A.vals.getD i 0 + B.vals.getD i 0⟩
  else .error .ShapeMismatch

/-- Embedding of operator-(double). -/
def MatrixXd.subVal (A : MatrixXd) (val : ℚ) : MatrixXd :=
  ⟨A.M, A.N, List.ofFn fun i : Fin (A.M * A.N) => A.vals.getD i 0 - val⟩

/-- Embedding of operator-(const MatrixXd). -/
def MatrixXd.sub (A B : MatrixXd) : Except AsFemExit MatrixXd :=
  if A.M = B.M ∧ A.N = B.N then
    .ok ⟨A.M, A.N, List.ofFn fun i : Fin (A.M * A.N) =>
      A.vals.getD i 0 - B.vals.getD i 0⟩
  else .error .ShapeMismatch

/-- Embedding of operator*(double). -/
def MatrixXd.mulVal (A : MatrixXd) (val : ℚ) : MatrixXd :=
  ⟨A.M, A.N, List.ofFn fun i : Fin (A.M * A.N) => A.vals.getD i 0 * val⟩

/-- Embedding of operator/(double). -/
def MatrixXd.divVal (A : MatrixXd) (val : ℚ) : MatrixXd :=
  ⟨A.M, A.N, List.ofFn fun i : Fin (A.M * A.N) => A.vals.getD i 0 / val⟩

/-- Embedding of operator*(const MatrixXd): temp(_M,a.GetN()); inner-dimension
check _N==a.GetM() (else the fatal ShapeMismatch exit); standard triple loop.
Entry (i,j) of the result, 0-based offset p=(i-1)*a.GetN()+(j-1), is the dot
product of row i of this with column j of a. -/
def MatrixXd.mulMat (A B : MatrixXd) : Except AsFemExit MatrixXd :=
  if A.N = B.M then
    .ok ⟨A.M, B.N, List.ofFn fun p : Fin (A.M * B.N) =>
      (Finset.range A.N).sum fun k =>
        A.vals.getD ((p / B.N) * A.N + k) 0 * B.vals.getD (k * B.N + p % B.N) 0⟩
  else .error .ShapeMismatch

/-- Embedding of setZero(): fill(_vals.begin(),_vals.end(),0.0). -/
def MatrixXd.setZero (A : MatrixXd) : MatrixXd :=
  ⟨A.M, A.N, A.vals.map fun _ => 0⟩

/-- Embedding of Transpose(): temp(_N,_M); temp(j,i)=this(i,j) for i in 1.._M,
j in 1.._N; the receiver is const and unchanged (the embedding is a pure
function). Target 0-based offset p=(j-1)*_M+(i-1) reads source offset
(i-1)*_N+(j-1), i.e. p reads (p mod _M)*_N + p / _M. -/
def MatrixXd.Transpose (A : MatrixXd) : MatrixXd :=
  ⟨A.N, A.M, List.ofFn fun p : Fin (A.N * A.M) =>
    A.vals.getD ((p % A.M) * A.N + p / A.M) 0⟩

/-- Embedding of Inverse(): the member first checks _M!=_N and, if so, prints
a diagnostic and terminates (NotSquare); otherwise it copies the entries into
an Eigen matrix, delegates the inversion to the external dense library, and
copies the result back into a fresh (_M,_N) matrix. The external inversion is
out of scope (the spec lists the dense linear-algebra backend as an external
collaborator), so it enters the model as the parameter eig giving the entry
of the inverted matrix at each 0-based offset. -/
def MatrixXd.Inverse (eig : MatrixXd → Nat → ℚ) (A : MatrixXd) :
    Except AsFemExit MatrixXd :=
  if A.M ≠ A.N then .error .NotSquare
  else .ok ⟨A.M, A.N, List.ofFn fun p : Fin (A.M * A.N) => eig A p⟩

/-- Embedding of Det(): the member performs no squareness check at all; it
unconditionally copies the entries into an Eigen matrix of shape (_M,_N) and
returns Mat.determinant() computed by the external dense library (parameter
edet). No branch of the repository code prints a diagnostic or terminates, so
the result is always ok. -/
def MatrixXd.Det (edet : MatrixXd → ℚ) (A : MatrixXd) : Except AsFemExit ℚ :=
  .ok (edet A)

lemma stdVectorResize_length (l : List ℚ) (count : Nat) (value : ℚ) :
    (stdVectorResize l count value).length = count := by
  unfold stdVectorResize
  by_cases h : count ≤ l.length
  · simp only [if_pos h, List.length_take]
    omega
  · simp only [if_neg h, List.length_append, List.length_replicate]
    omega

lemma ofFn_getD_self (l : List ℚ) :
    (List.ofFn fun i : Fin l.length => l.getD i 0) = l := by
  refine List.ext_getElem (by simp) ?_
  intro i h1 h2
  rw [List.getElem_ofFn]
  exact List.getD_eq_getElem l 0 h2

/-!
Embedding of NonlinearSolver::Init. Each PETSc call the routine makes is
modelled as a pure update of a PetscState record; the routine itself becomes
a straight-line function from the configuration block to the final state,
mirroring the C++ statement by statement. The routine contains no error or
exit path, so Init is a total function.
-/

/-- SNES outer-solver type tags passed to SNESSetType. -/
inductive SNESTypeTag where
  | SNESNEWTONLS
  | SNESNEWTONTR
  | SNESQN
  | SNESNCG
  | SNESNGMRES
deriving DecidableEq

/-- Quasi-Newton subtype tags passed to SNESQNSetType. -/
inductive SNESQNTypeTag where
  | SNES_QN_LBFGS
  | SNES_QN_BROYDEN
  | SNES_QN_BADBROYDEN
deriving DecidableEq

/-- Line-search strategy tags passed to SNESLineSearchSetType. -/
inductive SNESLineSearchTypeTag where
  | SNESLINESEARCHBASIC
  | SNESLINESEARCHBT
  | SNESLINESEARCHCP
  | SNESLINESEARCHL2
deriving DecidableEq

/-- Preconditioner type tags passed to PCSetType. -/
inductive PCTypeTag where
  | PCLU
deriving DecidableEq

/-- Modelled from the spec: the NonlinearSolverType enum declaration is not in
the provided sources; the spec lists exactly the eight dispatched tags. The
extra constructor UnrecognizedTag stands for any enum value other than those
eight, for which the dispatch chain takes no branch. -/
inductive NonlinearSolverType where
  | NewtonRaphson
  | SNESNewtonLs
  | SNESNewtonTr
  | SNESLBfgs
  | SNESBroyden
  | SNESBadBroyden
  | SNESNewtonCG
  | SNESNewtonGMRES
  | UnrecognizedTag
deriving DecidableEq

/-- Modelled from the spec: the LineSearchType enum declaration is not in the
provided sources; the spec lists the five tags the dispatch compares against. -/
inductive LineSearchType where
  | LineSearchDefault
  | LineSearchBackTrace
  | LineSearchCP
  | LineSearchL2
  | LineSearchBasic
deriving DecidableEq

/-- Modelled from the spec: the NonlinearSolverBlock struct declaration is not
in the provided sources; its fields are exactly those Init reads. -/
structure NonlinearSolverBlock where
  SolverType : NonlinearSolverType
  MaxIters : Int
  RAbsTol : ℚ
  RRelTol : ℚ
  STol : ℚ
  LineSearchType : LineSearchType
  LineSearchOrder : Int

/-- Observable configuration state accumulated by the PETSc calls Init makes.
The two SetType/SetOrder call logs keep every call in order, so both the
final configured value and the number of applications are recoverable. -/
structure PetscState where
  snesCreated : Bool
  kspRTol : ℚ
  kspAbsTol : ℚ
  kspMaxIts : Int
  gmresRestart : Int
  pcType : Option PCTypeTag
  snesAbsTol : ℚ
  snesRelTol : ℚ
  snesSTol : ℚ
  snesMaxIters : Int
  snesMaxFuncEvals : Int
  snesType : Option SNESTypeTag
  snesQNType : Option SNESQNTypeTag
  lineSearchObtained : Bool
  lineSearchSetTypeCalls : List SNESLineSearchTypeTag
  lineSearchSetOrderCalls : List Int

/-- State before Init has made any PETSc call. -/
def PetscState.start : PetscState :=
  ⟨false, 0, 0, 0, 0, none, 0, 0, 0, 0, 0, none, none, false, [], []⟩

/-- Model of SNESCreate. -/
def SNESCreate (s : PetscState) : PetscState := { s with snesCreated := true }

/-- Model of KSPSetTolerances(ksp,rtol,abstol,dtol,maxits); dtol is passed as
PETSC_DEFAULT by Init and is not tracked. -/
def KSPSetTolerances (s : PetscState) (rtol abstol : ℚ) (maxits : Int) :
    PetscState :=
  { s with kspRTol := rtol, kspAbsTol := abstol, kspMaxIts := maxits }

/-- Model of KSPGMRESSetRestart. -/
def KSPGMRESSetRestart (s : PetscState) (r : Int) : PetscState :=
  { s with gmresRestart := r }

/-- Model of PCSetType. -/
def PCSetType (s : PetscState) (t : PCTypeTag) : PetscState :=
  { s with pcType := some t }

/-- Model of SNESSetTolerances(snes,abstol,rtol,stol,maxit,maxf). -/
def SNESSetTolerances (s : PetscState) (abstol rtol stol : ℚ)
    (maxit maxf : Int) : PetscState :=
  { s with snesAbsTol := abstol, snesRelTol := rtol, snesSTol := stol,
           snesMaxIters := maxit, snesMaxFuncEvals := maxf }

/-- Model of SNESSetType. -/
def SNESSetType (s : PetscState) (t : SNESTypeTag) : PetscState :=
  { s with snesType := some t }

/-- Model of SNESQNSetType. -/
def SNESQNSetType (s : PetscState) (t : SNESQNTypeTag) : PetscState :=
  { s with snesQNType := some t }

/-- Model of SNESGetLineSearch: records that the line-search handle was
obtained from the SNES object. -/
def SNESGetLineSearch (s : PetscState) : PetscState :=
  { s with lineSearchObtained := true }

/-- Model of SNESLineSearchSetType: appended to the call log; the configured
strategy is the last entry. -/
def SNESLineSearchSetType (s : PetscState) (t : SNESLineSearchTypeTag) :
    PetscState :=
  { s with lineSearchSetTypeCalls := s.lineSearchSetTypeCalls ++ [t] }

/-- Model of SNESLineSearchSetOrder: appended to the call log. The C++ call
acts on whatever the _linesearch member currently holds, obtained or not. -/
def SNESLineSearchSetOrder (s : PetscState) (o : Int) : PetscState :=
  { s with lineSearchSetOrderCalls := s.lineSearchSetOrderCalls ++ [o] }

/-- Embedding of the line-search if/else-if chain shared by all branches of
NonlinearSolver::Init, parameterised by the strategy chosen for
LineSearchDefault (the only case that differs between branches). -/
def lineSearchDispatch (s : PetscState) (ls : LineSearchType)
    (defCase : SNESLineSearchTypeTag) : PetscState :=
  if ls = .LineSearchDefault then SNESLineSearchSetType s defCase
  else if ls = .LineSearchBackTrace then
    SNESLineSearchSetType s .SNESLINESEARCHBT
  else if ls = .LineSearchCP then SNESLineSearchSetType s .SNESLINESEARCHCP
  else if ls = .LineSearchL2 then SNESLineSearchSetType s .SNESLINESEARCHL2
  else if ls = .LineSearchBasic then
    SNESLineSearchSetType s .SNESLINESEARCHBASIC
  else s

/-- Embedding of NonlinearSolver::Init, statement by statement. The copies of
the block fields into the solver members and the SNESCreate/KSP/PC calls come
first, then the eight-way dispatch on the solver type (each branch sets the
SNES type, obtains the line-search handle and runs the line-search chain;
only the NewtonRaphson and SNESNewtonLs branches also apply the order inside
the branch; the SNESNewtonLs branch first sets L2 unconditionally before its
chain), and finally the unconditional trailing SNESLineSearchSetOrder. -/
def NonlinearSolver.Init (b : NonlinearSolverBlock) : PetscState :=
  let s := SNESCreate PetscState.start
  let s := KSPSetTolerances s (1 / 10 ^ 10) (1 / 10 ^ 10) 500000
  let s := KSPGMRESSetRestart s 1200
  let s := PCSetType s .PCLU
  let s := SNESSetTolerances s b.RAbsTol b.RRelTol b.STol b.MaxIters (-1)
  let s :=
    if b.SolverType = .NewtonRaphson then
      let s := SNESSetType s .SNESNEWTONLS
      let s := SNESGetLineSearch s
      let s := lineSearchDispatch s b.LineSearchType .SNESLINESEARCHBASIC
      SNESLineSearchSetOrder s b.LineSearchOrder
    else if b.SolverType = .SNESNewtonLs then
      let s := SNESSetType s .SNESNEWTONLS
      let s := SNESGetLineSearch s
      let s := SNESLineSearchSetType s .SNESLINESEARCHL2
      let s := lineSearchDispatch s b.LineSearchType .SNESLINESEARCHBT
      SNESLineSearchSetOrder s b.LineSearchOrder
    else if b.SolverType = .SNESNewtonTr then
      let s := SNESSetType s .SNESNEWTONTR
      let s := SNESGetLineSearch s
      lineSearchDispatch s b.LineSearchType .SNESLINESEARCHBASIC
    else if b.SolverType = .SNESLBfgs then
      let s := SNESSetType s .SNESQN
      let s := SNESQNSetType s .SNES_QN_LBFGS
      let s := SNESGetLineSearch s
      lineSearchDispatch s b.LineSearchType .SNESLINESEARCHCP
    else if b.SolverType = .SNESBroyden then
      let s := SNESSetType s .SNESQN
      let s := SNESQNSetType s .SNES_QN_BROYDEN
      let s := SNESGetLineSearch s
      lineSearchDispatch s b.LineSearchType .SNESLINESEARCHBASIC
    else if b.SolverType = .SNESBadBroyden then
      let s := SNESSetType s .SNESQN
      let s := SNESQNSetType s .SNES_QN_BADBROYDEN
      let s := SNESGetLineSearch s
      lineSearchDispatch s b.LineSearchType .SNESLINESEARCHL2
    else if b.SolverType = .SNESNewtonCG then
      let s := SNESSetType s .SNESNCG
      let s := SNESGetLineSearch s
      lineSearchDispatch s b.LineSearchType .SNESLINESEARCHCP
    else if b.SolverType = .SNESNewtonGMRES then
      let s := SNESSetType s .SNESNGMRES
      let s := SNESGetLineSearch s
      lineSearchDispatch s b.LineSearchType .SNESLINESEARCHL2
    else s
  SNESLineSearchSetOrder s b.LineSearchOrder

/-- Strategy actually configured on the line-search object: the last
SNESLineSearchSetType call wins. -/
def configuredLineSearch (s : PetscState) : Option SNESLineSearchTypeTag :=
  s.lineSearchSetTypeCalls.getLast?

lemma getD_ofFn {n : Nat} (f : Fin n → ℚ) (k : Nat) (h : k < n) :
    (List.ofFn f).getD k 0 = f ⟨k, h⟩ := by
  rw [List.getD_eq_getElem _ 0 (by simpa using h)]
  exact List.getElem_ofFn f k (by simpa using h)

lemma ofFn_getD_of_length (l : List ℚ) (n : Nat) (h : l.length = n) :
    (List.ofFn fun i : Fin n => l.getD i 0) = l := by
  subst h
  exact ofFn_getD_self l

/-- C2: the claim says that after A.Resize(m,n,val) every element of A equals
val (0 for the two-argument overload). The code calls std::vector::resize,
which keeps the existing prefix of the buffer, contradicting the claim and
the member's own doc comment; evaluated here at the failing input
A = MatrixXd(1,1,7.0): after A.Resize(2,2,5.0) the buffer is 7,5,5,5 and
element (1,1) still reads 7, and after A.Resize(1,1) on a fresh
MatrixXd(1,1,7.0) element (1,1) still reads 7 rather than 0. -/
theorem C2_resize_keeps_prior_contents :
    ((MatrixXd.mkVal 1 1 7).ResizeVal 2 2 5).vals = [7, 5, 5, 5] ∧
    ((MatrixXd.mkVal 1 1 7).ResizeVal 2 2 5).at' 1 1 = 7 ∧
    ((MatrixXd.mkVal 1 1 7).Resize 1 1).at' 1 1 = 7 ∧
    ((MatrixXd.mkVal 1 1 7).Resize 1 1).vals.length = 1 * 1 := by
  decide

/-- C3 counterexample: the claim says Det() on a non-square matrix prints a
NotSquare diagnostic and terminates, never returning a value. The body of
MatrixXd::Det contains no squareness check and no exit call: on the concrete
2 by 3 zero matrix it simply returns the external determinant value (here the
external library is instantiated by the constant 0 function), so the claim is
false at this input. -/
theorem C3_det_nonsquare_returns :
    (2 : Nat) ≠ 3 ∧
    MatrixXd.Det (fun _ => 0) ⟨2, 3, List.replicate 6 0⟩ = .ok 0 := by
  exact ⟨by decide, rfl⟩

/-- C3 amended: on a non-square receiver Inverse() does print a diagnostic
and terminate (the NotSquare exit), for any behaviour of the external dense
inversion; Det(), by contrast, performs no squareness check of its own and
never terminates the process — it unconditionally returns whatever the
external dense decomposition computes. -/
theorem C3_nonsquare_policy (eig : MatrixXd → Nat → ℚ) (edet : MatrixXd → ℚ)
    (A : MatrixXd) (h : A.GetM ≠ A.GetN) :
    MatrixXd.Inverse eig A = .error .NotSquare ∧
    ∀ e : AsFemExit, MatrixXd.Det edet A ≠ .error e := by
  constructor
  · unfold MatrixXd.Inverse
    rw [if_pos (show A.M ≠ A.N from h)]
  · intro e he
    exact Except.noConfusion he

/-- C3 amended, witness at the concrete 2 by 3 zero matrix with the constant-0
external library functions. -/
theorem C3_nonsquare_policy_witness :
    MatrixXd.Inverse (fun _ _ => 0) ⟨2, 3, List.replicate 6 0⟩ =
      .error .NotSquare ∧
    ∀ e : AsFemExit,
      MatrixXd.Det (fun _ => 0) ⟨2, 3, List.replicate 6 0⟩ ≠ .error e :=
  C3_nonsquare_policy (fun _ _ => 0) (fun _ => 0) ⟨2, 3, List.replicate 6 0⟩
    (by decide)

/-- C4 counterexample: the claim includes Clean among the operations after
which the buffer length equals GetM()*GetN(). Clean() only calls
_vals.clear() and leaves _M and _N untouched, so on the concrete 1 by 1
matrix the buffer is empty afterwards while GetM()*GetN() is still 1. -/
theorem C4_clean_breaks_invariant :
    ((MatrixXd.mkVal 1 1 0).Clean).vals.length = 0 ∧
    ((MatrixXd.mkVal 1 1 0).Clean).GetM * ((MatrixXd.mkVal 1 1 0).Clean).GetN
      = 1 ∧
    ¬ ((MatrixXd.mkVal 1 1 0).Clean).wf := by
  decide

/-- C4 amended: the buffer-length invariant vals.length = GetM()*GetN() is
established by construction and by Resize, preserved by scalar assignment and
setZero, established by every arithmetic result and by Transpose, and holds
for every successful matrix assignment, sum, difference and product; element
access (i,j) reads the row-major offset (i-1)*N+(j-1) of the buffer. Clean,
however, empties the buffer while leaving GetM() and GetN() unchanged, so the
invariant fails after Clean whenever the prior shape was nonempty. -/
theorem C4_wf_invariant (A B C : MatrixXd) (m n i j : Nat) (v : ℚ)
    (hA : A.wf) :
    MatrixXd.mk0.wf ∧ (MatrixXd.mkMN m n).wf ∧ (MatrixXd.mkVal m n v).wf ∧
    (B.ResizeVal m n v).wf ∧ (B.Resize m n).wf ∧
    (A.assignVal v).wf ∧ A.setZero.wf ∧
    (B.addVal v).wf ∧ (B.subVal v).wf ∧ (B.mulVal v).wf ∧ (B.divVal v).wf ∧
    B.Transpose.wf ∧
    (∀ D, B.assign C = .ok D → D.wf) ∧
    (∀ D, B.add C = .ok D → D.wf) ∧
    (∀ D, B.sub C = .ok D → D.wf) ∧
    (∀ D, B.mulMat C = .ok D → D.wf) ∧
    B.at' i j = B.vals.getD ((i - 1) * B.N + (j - 1)) 0 ∧
    (B.Clean.M = B.M ∧ B.Clean.N = B.N ∧ B.Clean.vals.length = 0) := by
  refine ⟨by simp [MatrixXd.wf, MatrixXd.mk0],
    by simp [MatrixXd.wf, MatrixXd.mkMN],
    by simp [MatrixXd.wf, MatrixXd.mkVal],
    by simp [MatrixXd.wf, MatrixXd.ResizeVal, stdVectorResize_length],
    by simp [MatrixXd.wf, MatrixXd.Resize, MatrixXd.ResizeVal,
      stdVectorResize_length],
    ?_, ?_,
    by simp [MatrixXd.wf, MatrixXd.addVal],
    by simp [MatrixXd.wf, MatrixXd.subVal],
    by simp [MatrixXd.wf, MatrixXd.mulVal],
    by simp [MatrixXd.wf, MatrixXd.divVal],
    by simp [MatrixXd.wf, MatrixXd.Transpose, Nat.mul_comm],
    ?_, ?_, ?_, ?_, rfl, rfl, rfl, rfl⟩
  · unfold MatrixXd.wf MatrixXd.assignVal at *
    simpa using hA
  · unfold MatrixXd.wf MatrixXd.setZero at *
    simpa using hA
  · intro D h
    unfold MatrixXd.assign at h
    split at h
    · cases h
      simp [MatrixXd.wf]
    · split at h
      · cases h
        simp [MatrixXd.wf]
      · cases h
  · intro D h
    unfold MatrixXd.add at h
    split at h
    · cases h
      simp [MatrixXd.wf]
    · cases h
  · intro D h
    unfold MatrixXd.sub at h
    split at h
    · cases h
      simp [MatrixXd.wf]
    · cases h
  · intro D h
    unfold MatrixXd.mulMat at h
    split at h
    · cases h
      simp [MatrixXd.wf]
    · cases h

/-- C4 amended, witness at concrete matrices of shape 2 by 2 and 2 by 1. -/
theorem C4_wf_invariant_witness :
    (MatrixXd.mkVal 2 2 (3 : ℚ)).wf ∧
    MatrixXd.mk0.wf ∧ (MatrixXd.mkMN 2 1).wf ∧ (MatrixXd.mkVal 2 1 5).wf ∧
    ((MatrixXd.mkMN 2 2).ResizeVal 2 1 5).wf ∧
    ((MatrixXd.mkMN 2 2).Resize 2 1).wf ∧
    ((MatrixXd.mkVal 2 2 (3 : ℚ)).assignVal 5).wf ∧
    (MatrixXd.mkVal 2 2 (3 : ℚ)).setZero.wf ∧
    ((MatrixXd.mkMN 2 2).addVal 5).wf ∧ ((MatrixXd.mkMN 2 2).subVal 5).wf ∧
    ((MatrixXd.mkMN 2 2).mulVal 5).wf ∧ ((MatrixXd.mkMN 2 2).divVal 5).wf ∧
    (MatrixXd.mkMN 2 2).Transpose.wf ∧
    (∀ D, (MatrixXd.mkMN 2 2).assign (MatrixXd.mkMN 2 1) = .ok D → D.wf) ∧
    (∀ D, (MatrixXd.mkMN 2 2).add (MatrixXd.mkMN 2 1) = .ok D → D.wf) ∧
    (∀ D, (MatrixXd.mkMN 2 2).sub (MatrixXd.mkMN 2 1) = .ok D → D.wf) ∧
    (∀ D, (MatrixXd.mkMN 2 2).mulMat (MatrixXd.mkMN 2 1) = .ok D → D.wf) ∧
    (MatrixXd.mkMN 2 2).at' 1 2 =
      (MatrixXd.mkMN 2 2).vals.getD ((1 - 1) * (MatrixXd.mkMN 2 2).N + (2 - 1)) 0 ∧
    ((MatrixXd.mkMN 2 2).Clean.M = (MatrixXd.mkMN 2 2).M ∧
     (MatrixXd.mkMN 2 2).Clean.N = (MatrixXd.mkMN 2 2).N ∧
     (MatrixXd.mkMN 2 2).Clean.vals.length = 0) :=
  ⟨by decide,
   C4_wf_invariant (MatrixXd.mkVal 2 2 (3 : ℚ)) (MatrixXd.mkMN 2 2)
     (MatrixXd.mkMN 2 1) 2 1 1 2 5 (by decide)⟩

/-- C5: matrix-to-matrix assignment adopts the source shape and copies the
elements when the target has the fresh shape 0 by 0; copies the elements when
the target shape equals the source shape; and otherwise prints a diagnostic
and terminates the process, embedded as the fatal ShapeMismatch error. -/
theorem C5_matrix_assign (A B : MatrixXd) (hA : A.wf) :
    (B.M = 0 ∧ B.N = 0 → B.assign A = .ok ⟨A.M, A.N, A.vals⟩) ∧
    (¬(B.M = 0 ∧ B.N = 0) → B.M = A.M ∧ B.N = A.N →
      B.assign A = .ok ⟨A.M, A.N, A.vals⟩) ∧
    (¬(B.M = 0 ∧ B.N = 0) → ¬(B.M = A.M ∧ B.N = A.N) →
      B.assign A = .error .ShapeMismatch) := by
  refine ⟨?_, ?_, ?_⟩
  · intro h
    unfold MatrixXd.assign
    rw [if_pos h, ofFn_getD_of_length A.vals _ hA]
  · intro hne h
    unfold MatrixXd.assign
    rw [if_neg hne, if_pos h, h.1, h.2, ofFn_getD_of_length A.vals _ hA]
  · intro hne hne2
    unfold MatrixXd.assign
    rw [if_neg hne, if_neg hne2]

/-- C5, witness: the three branches evaluated at concrete matrices — a fresh
0 by 0 target, a same-shape 1 by 2 target, and a mismatched 2 by 1 target. -/
theorem C5_matrix_assign_witness :
    MatrixXd.mk0.assign ⟨1, 2, [3, 4]⟩ = .ok ⟨1, 2, [3, 4]⟩ ∧
    MatrixXd.assign ⟨1, 2, [0, 0]⟩ ⟨1, 2, [3, 4]⟩ = .ok ⟨1, 2, [3, 4]⟩ ∧
    MatrixXd.assign ⟨2, 1, [0, 0]⟩ ⟨1, 2, [3, 4]⟩ = .error .ShapeMismatch :=
  ⟨(C5_matrix_assign ⟨1, 2, [3, 4]⟩ MatrixXd.mk0 (by decide)).1 (by decide),
   (C5_matrix_assign ⟨1, 2, [3, 4]⟩ ⟨1, 2, [0, 0]⟩ (by decide)).2.1
     (by decide) (by decide),
   (C5_matrix_assign ⟨1, 2, [3, 4]⟩ ⟨2, 1, [0, 0]⟩ (by decide)).2.2
     (by decide) (by decide)⟩

/-- C9: for every well-formed matrix A, Transpose applied twice gives back A
elementwise (here: as an identical matrix value). Transpose is a const member
that builds a fresh temp and never writes the receiver; it is embedded as a
pure function, so the receiver is unchanged by construction. -/
theorem C9_transpose_involution (A : MatrixXd) (h : A.wf) :
    A.Transpose.Transpose = A := by
  rcases A with ⟨M, N, l⟩
  unfold MatrixXd.wf at h
  simp only at h
  simp only [MatrixXd.Transpose, MatrixXd.mk.injEq]
  refine ⟨trivial, trivial, ?_⟩
  refine List.ext_getElem (by simpa using h.symm) ?_
  intro p h1 h2
  have hp : p < M * N := by simpa using h1
  have hMN : 0 < M * N := Nat.lt_of_le_of_lt (Nat.zero_le p) hp
  have hM : 0 < M := by
    rcases Nat.eq_zero_or_pos M with h0 | h0
    · rw [h0] at hMN
      simp at hMN
    · exact h0
  have hN : 0 < N := by
    rcases Nat.eq_zero_or_pos N with h0 | h0
    · rw [h0] at hMN
      simp at hMN
    · exact h0
  have hp2 : p < N * M := by
    rw [Nat.mul_comm N M]
    exact hp
  have hdiv : p / N < M := Nat.div_lt_of_lt_mul hp2
  have hmod : p % N < N := Nat.mod_lt _ hN
  have hq : (p % N) * M + p / N < N * M := by
    have h3 : (p % N) * M ≤ (N - 1) * M := Nat.mul_le_mul_right M (by omega)
    have h4 : (N - 1) * M + M = N * M := by
      have h5 : N - 1 + 1 = N := by omega
      calc (N - 1) * M + M = (N - 1 + 1) * M := by ring
        _ = N * M := by rw [h5]
    omega
  rw [List.getElem_ofFn]
  simp only
  rw [getD_ofFn _ _ hq]
  simp only
  have e1 : ((p % N) * M + p / N) % M = p / N := by
    rw [Nat.mul_comm (p % N) M, Nat.mul_add_mod]
    exact Nat.mod_eq_of_lt hdiv
  have e2 : ((p % N) * M + p / N) / M = p % N := by
    rw [Nat.mul_comm (p % N) M, Nat.mul_add_div hM, Nat.div_eq_of_lt hdiv]
    omega
  rw [e1, e2]
  have e3 : p / N * N + p % N = p := by
    rw [Nat.mul_comm]
    exact Nat.div_add_mod p N
  rw [e3]
  exact List.getD_eq_getElem l 0 h2

/-- C9, witness at the concrete 2 by 3 matrix with rows 1,2,3 and 4,5,6. -/
theorem C9_transpose_involution_witness :
    (⟨2, 3, [1, 2, 3, 4, 5, 6]⟩ : MatrixXd).Transpose.Transpose =
      ⟨2, 3, [1, 2, 3, 4, 5, 6]⟩ :=
  C9_transpose_involution ⟨2, 3, [1, 2, 3, 4, 5, 6]⟩ (by decide)

/-- C1: for each of the eight recognized solver-type tags combined with the
Default line-search tag, the configured line-search strategy (the last
SNESLineSearchSetType call Init makes) is exactly the per-method default:
NewtonRaphson Basic, SNESNewtonLs BackTrace, SNESNewtonTr Basic, SNESLBfgs
CriticalPoint, SNESBroyden Basic, SNESBadBroyden L2, SNESNewtonCG
CriticalPoint, SNESNewtonGMRES L2. -/
theorem C1_default_table (b : NonlinearSolverBlock)
    (h : b.LineSearchType = .LineSearchDefault) :
    (b.SolverType = .NewtonRaphson →
      configuredLineSearch (NonlinearSolver.Init b) = some .SNESLINESEARCHBASIC) ∧
    (b.SolverType = .SNESNewtonLs →
      configuredLineSearch (NonlinearSolver.Init b) = some .SNESLINESEARCHBT) ∧
    (b.SolverType = .SNESNewtonTr →
      configuredLineSearch (NonlinearSolver.Init b) = some .SNESLINESEARCHBASIC) ∧
    (b.SolverType = .SNESLBfgs →
      configuredLineSearch (NonlinearSolver.Init b) = some .SNESLINESEARCHCP) ∧
    (b.SolverType = .SNESBroyden →
      configuredLineSearch (NonlinearSolver.Init b) = some .SNESLINESEARCHBASIC) ∧
    (b.SolverType = .SNESBadBroyden →
      configuredLineSearch (NonlinearSolver.Init b) = some .SNESLINESEARCHL2) ∧
    (b.SolverType = .SNESNewtonCG →
      configuredLineSearch (NonlinearSolver.Init b) = some .SNESLINESEARCHCP) ∧
    (b.SolverType = .SNESNewtonGMRES →
      configuredLineSearch (NonlinearSolver.Init b) = some .SNESLINESEARCHL2) := by
  rcases b with ⟨st, mi, ra, rr, stol, ls, ord⟩
  cases h
  refine ⟨?_, ?_, ?_, ?_, ?_, ?_, ?_, ?_⟩ <;> (intro h2; cases h2; rfl)

/-- C1, witness: SNESNewtonLs with Default resolves to BackTrace at a
concrete configuration block. -/
theorem C1_default_table_witness :
    configuredLineSearch (NonlinearSolver.Init
      ⟨.SNESNewtonLs, 20, 1/2, 1/3, 1/4, .LineSearchDefault, 7⟩) =
      some .SNESLINESEARCHBT :=
  (C1_default_table ⟨.SNESNewtonLs, 20, 1/2, 1/3, 1/4, .LineSearchDefault, 7⟩
    rfl).2.1 rfl

/-- C6: Init applies the configured line-search order once inside the branch
for the two methods whose branches contain the in-branch call (NewtonRaphson
and SNESNewtonLs) and once more, unconditionally, after the whole dispatch,
so those methods see the order applied twice and every other recognized
method exactly once; in particular the trust-region branch still obtains a
line-search handle and the trailing re-application is not skipped for it. -/
theorem C6_order_calls (b : NonlinearSolverBlock) :
    ((b.SolverType = .NewtonRaphson ∨ b.SolverType = .SNESNewtonLs) →
      (NonlinearSolver.Init b).lineSearchSetOrderCalls =
        [b.LineSearchOrder, b.LineSearchOrder]) ∧
    (b.SolverType ≠ .NewtonRaphson → b.SolverType ≠ .SNESNewtonLs →
      (NonlinearSolver.Init b).lineSearchSetOrderCalls = [b.LineSearchOrder]) ∧
    (b.SolverType = .SNESNewtonTr →
      (NonlinearSolver.Init b).lineSearchObtained = true ∧
      (NonlinearSolver.Init b).lineSearchSetOrderCalls = [b.LineSearchOrder]) := by
  rcases b with ⟨st, mi, ra, rr, stol, ls, ord⟩
  refine ⟨?_, ?_, ?_⟩
  · rintro (h | h) <;> (cases h; cases ls <;> rfl)
  · intro h1 h2
    cases st <;>
      first
        | exact absurd rfl h1
        | exact absurd rfl h2
        | (cases ls <;> rfl)
  · intro h
    cases h
    cases ls <;> exact ⟨rfl, rfl⟩

/-- C6, witness: a NewtonRaphson block sees the order applied twice; a
trust-region block keeps a line-search handle and one trailing application. -/
theorem C6_order_calls_witness :
    (NonlinearSolver.Init
      ⟨.NewtonRaphson, 20, 1/2, 1/3, 1/4, .LineSearchCP, 7⟩).lineSearchSetOrderCalls
      = [7, 7] ∧
    (NonlinearSolver.Init
      ⟨.SNESNewtonTr, 20, 1/2, 1/3, 1/4, .LineSearchCP, 7⟩).lineSearchObtained
      = true ∧
    (NonlinearSolver.Init
      ⟨.SNESNewtonTr, 20, 1/2, 1/3, 1/4, .LineSearchCP, 7⟩).lineSearchSetOrderCalls
      = [7] :=
  ⟨(C6_order_calls ⟨.NewtonRaphson, 20, 1/2, 1/3, 1/4, .LineSearchCP, 7⟩).1
      (Or.inl rfl),
   ((C6_order_calls ⟨.SNESNewtonTr, 20, 1/2, 1/3, 1/4, .LineSearchCP, 7⟩).2.2
      rfl).1,
   ((C6_order_calls ⟨.SNESNewtonTr, 20, 1/2, 1/3, 1/4, .LineSearchCP, 7⟩).2.2
      rfl).2⟩

/-- C7: whichever of the eight recognized outer methods is selected, an
explicit non-Default line-search tag always configures its 1:1 strategy:
BackTrace to BackTrace, CP to CriticalPoint, L2 to L2, Basic to Basic. -/
theorem C7_explicit_map (b : NonlinearSolverBlock)
    (hrec : b.SolverType ≠ .UnrecognizedTag) :
    (b.LineSearchType = .LineSearchBackTrace →
      configuredLineSearch (NonlinearSolver.Init b) = some .SNESLINESEARCHBT) ∧
    (b.LineSearchType = .LineSearchCP →
      configuredLineSearch (NonlinearSolver.Init b) = some .SNESLINESEARCHCP) ∧
    (b.LineSearchType = .LineSearchL2 →
      configuredLineSearch (NonlinearSolver.Init b) = some .SNESLINESEARCHL2) ∧
    (b.LineSearchType = .LineSearchBasic →
      configuredLineSearch (NonlinearSolver.Init b) = some .SNESLINESEARCHBASIC) := by
  rcases b with ⟨st, mi, ra, rr, stol, ls, ord⟩
  refine ⟨?_, ?_, ?_, ?_⟩ <;>
    (intro h2; cases h2; cases st <;> first | rfl | exact absurd rfl hrec)

/-- C7, witness: SNESNewtonTr with explicit L2 configures L2. -/
theorem C7_explicit_map_witness :
    configuredLineSearch (NonlinearSolver.Init
      ⟨.SNESNewtonTr, 20, 1/2, 1/3, 1/4, .LineSearchL2, 7⟩) =
      some .SNESLINESEARCHL2 :=
  (C7_explicit_map ⟨.SNESNewtonTr, 20, 1/2, 1/3, 1/4, .LineSearchL2, 7⟩
    (by decide)).2.2.1 rfl

/-- C8: for every configuration block, Init sets the inner KSP solve to
relative and absolute tolerances 1e-10 with an iteration cap of 500000 and a
GMRES restart length of 1200, preconditioned by a direct LU factorization,
and sets the outer SNES tolerances to the block's absolute residual, relative
residual and step tolerances and its max iterations, with the
max-function-evaluations argument passed as the disabled sentinel -1. -/
theorem C8_inner_outer_config (b : NonlinearSolverBlock) :
    (NonlinearSolver.Init b).kspRTol = 1 / 10 ^ 10 ∧
    (NonlinearSolver.Init b).kspAbsTol = 1 / 10 ^ 10 ∧
    (NonlinearSolver.Init b).kspMaxIts = 500000 ∧
    (NonlinearSolver.Init b).gmresRestart = 1200 ∧
    (NonlinearSolver.Init b).pcType = some .PCLU ∧
    (NonlinearSolver.Init b).snesAbsTol = b.RAbsTol ∧
    (NonlinearSolver.Init b).snesRelTol = b.RRelTol ∧
    (NonlinearSolver.Init b).snesSTol = b.STol ∧
    (NonlinearSolver.Init b).snesMaxIters = b.MaxIters ∧
    (NonlinearSolver.Init b).snesMaxFuncEvals = -1 := by
  rcases b with ⟨st, mi, ra, rr, stol, ls, ord⟩
  cases st <;> cases ls <;>
    exact ⟨rfl, rfl, rfl, rfl, rfl, rfl, rfl, rfl, rfl, rfl⟩

/-- C10: for a solver-type tag other than the eight recognized ones, Init
takes no dispatch branch: the SNES type is never set, the line-search handle
is never obtained and no line-search type is configured; yet the trailing
SNESLineSearchSetOrder call still executes on the never-obtained handle, and
Init returns normally (its body contains no diagnostic or exit path, so the
embedding is a total function with no error channel). -/
theorem C10_unrecognized (b : NonlinearSolverBlock)
    (h : b.SolverType = .UnrecognizedTag) :
    (NonlinearSolver.Init b).snesType = none ∧
    (NonlinearSolver.Init b).snesQNType = none ∧
    (NonlinearSolver.Init b).lineSearchObtained = false ∧
    (NonlinearSolver.Init b).lineSearchSetTypeCalls = [] ∧
    (NonlinearSolver.Init b).lineSearchSetOrderCalls = [b.LineSearchOrder] := by
  rcases b with ⟨st, mi, ra, rr, stol, ls, ord⟩
  cases h
  exact ⟨rfl, rfl, rfl, rfl, rfl⟩

/-- C10, witness at a concrete unrecognized-tag block. -/
theorem C10_unrecognized_witness :
    (NonlinearSolver.Init
      ⟨.UnrecognizedTag, 20, 1/2, 1/3, 1/4, .LineSearchL2, 7⟩).snesType = none ∧
    (NonlinearSolver.Init
      ⟨.UnrecognizedTag, 20, 1/2, 1/3, 1/4, .LineSearchL2, 7⟩).snesQNType = none ∧
    (NonlinearSolver.Init
      ⟨.UnrecognizedTag, 20, 1/2, 1/3, 1/4, .LineSearchL2, 7⟩).lineSearchObtained
      = false ∧
    (NonlinearSolver.Init
      ⟨.UnrecognizedTag, 20, 1/2, 1/3, 1/4, .LineSearchL2, 7⟩).lineSearchSetTypeCalls
      = [] ∧
    (NonlinearSolver.Init
      ⟨.UnrecognizedTag, 20, 1/2, 1/3, 1/4, .LineSearchL2, 7⟩).lineSearchSetOrderCalls
      = [7] :=
  C10_unrecognized ⟨.UnrecognizedTag, 20, 1/2, 1/3, 1/4, .LineSearchL2, 7⟩ rfl
